import Mathlib

/-!
Verification development for the gene-enrichment pipeline.

Shallow embedding of the core components of the backend:

* `backend/app/workers/progress_tracker.py` — the progress tracker state
  machine over an ephemeral TTL key-value store;
* `backend/app/services/kegg_api.py` — the retrying client's request loop;
* `backend/app/services/ortholog_service.py` — the ortholog resolution
  engine (candidate filtering, scoring, stable selection);
* `backend/app/workers/process_job.py` — the job orchestrator.

Python floats in the source only ever carry exact decimal values produced
by integer additions and one true division, so they are embedded as `ℚ`.
Wall-clock timestamps (`started_at` / `updated_at`) and log output carry no
information any claim depends on and are omitted from the state.
-/

/-- Python's `round(x, 2)` (round-half-to-even on the idealized exact
value), used by `ProgressTracker.update` at progress_tracker.py:289. -/
def roundHalfToEven (q : ℚ) : ℤ :=
  if q - ⌊q⌋ < 1/2 then ⌊q⌋
  else if 1/2 < q - ⌊q⌋ then ⌊q⌋ + 1
  else if ⌊q⌋ % 2 = 0 then ⌊q⌋ else ⌊q⌋ + 1

/-- `round(q, 2)`: round to two decimal places. -/
def round2 (q : ℚ) : ℚ := (roundHalfToEven (q * 100) : ℚ) / 100

/-- Final-statistics payload stored by `tracker.complete` (the dict built at
process_job.py:443-448). -/
structure FinalStats where
  total_genes : Nat
  genes_with_orthologs : Nat
  coverage_percent : ℚ
  method : String
deriving Repr, DecidableEq

/-- The JSON object stored under `progress:{job_id}`
(progress_tracker.py:40-56).  `final_stats` and `error_message` are absent
keys until `complete` / `error` add them. -/
structure ProgressData where
  organism_id : Nat
  organism_code : String
  stage : String
  progress : ℚ
  total_genes : Nat
  genes_processed : Nat
  genes_with_orthologs : Nat
  errors : Nat
  final_stats : Option FinalStats := none
  error_message : Option String := none
deriving Repr, DecidableEq

/-- The slice of Redis visible to one tracker: the value under its single
key `progress:{job_id}` together with the TTL applied at the last write;
`none` means the key is absent (expired or never written). -/
abbrev RedisState := Option (ProgressData × Nat)

namespace ProgressTracker

/-- progress_tracker.py:145 — `TTL_SECONDS = 86400`. -/
def TTL_SECONDS : Nat := 86400

/-- progress_tracker.py:116. -/
def STAGE_FETCHING_GENES : String := "fetching_genes"

/-- progress_tracker.py:117. -/
def STAGE_STORING_GENES : String := "storing_genes"

/-- progress_tracker.py:118. -/
def STAGE_FINDING_ORTHOLOGS : String := "finding_orthologs"

/-- progress_tracker.py:119. -/
def STAGE_COMPLETE : String := "complete"

/-- progress_tracker.py:120. -/
def STAGE_ERROR : String := "error"

/-- progress_tracker.py:131-135 — the `STAGE_WEIGHTS` dict; `none` models a
missing key, read back through `.get` defaults at the call sites. -/
def STAGE_WEIGHTS : String → Option (ℚ × ℚ)
  | "fetching_genes" => some (0, 10)
  | "storing_genes" => some (10, 15)
  | "finding_orthologs" => some (15, 100)
  | _ => none

/-- `ProgressTracker.start` (progress_tracker.py:164-209): unconditionally
SETEX a fresh progress object with progress 0 and stage `fetching_genes`. -/
def start (_st : RedisState) (organism_id : Nat) (organism_code : String)
    (total_genes : Nat := 0) : RedisState :=
  some ({ organism_id := organism_id
          organism_code := organism_code
          stage := STAGE_FETCHING_GENES
          progress := 0
          total_genes := total_genes
          genes_processed := 0
          genes_with_orthologs := 0
          errors := 0 }, TTL_SECONDS)

/-- `ProgressTracker.update` (progress_tracker.py:216-309).  If the key is
absent a minimal entry is created from the arguments (the `progress` value
is stored as given); otherwise the existing JSON is updated — `stage` and
`progress` (rounded to 2 decimal places) always, the counters only when the
corresponding optional argument was provided — and written back with a
refreshed TTL. -/
def update (st : RedisState) (stage : String) (progress : ℚ)
    (genes_processed : Option Nat := none)
    (genes_with_orthologs : Option Nat := none)
    (errors : Option Nat := none)
    (total_genes : Option Nat := none) : RedisState :=
  match st with
  | none =>
      some ({ organism_id := 0
              organism_code := "unknown"
              stage := stage
              progress := progress
              total_genes := total_genes.getD 0
              genes_processed := genes_processed.getD 0
              genes_with_orthologs := genes_with_orthologs.getD 0
              errors := errors.getD 0 }, TTL_SECONDS)
  | some (data, _) =>
      some ({ data with
              stage := stage
              progress := round2 progress
              genes_processed := genes_processed.getD data.genes_processed
              genes_with_orthologs :=
                genes_with_orthologs.getD data.genes_with_orthologs
              errors := errors.getD data.errors
              total_genes := total_genes.getD data.total_genes }, TTL_SECONDS)

/-- `ProgressTracker.complete` (progress_tracker.py:318-361): only when the
key is present, set stage `complete`, progress 100, optionally attach the
final stats, and SETEX with a fresh TTL.  When the key is absent nothing is
written. -/
def complete (st : RedisState) (final_stats : Option FinalStats := none) :
    RedisState :=
  match st with
  | none => none
  | some (data, _) =>
      some ({ data with
              stage := STAGE_COMPLETE
              progress := 100
              final_stats :=
                match final_stats with
                | some fs => some fs
                | none => data.final_stats }, TTL_SECONDS)

/-- `ProgressTracker.error` (progress_tracker.py:363-398): only when the key
is present, set stage `error` and a message truncated to 1000 characters,
and SETEX with a fresh TTL.  When the key is absent nothing is written. -/
def error (st : RedisState) (error_message : String) : RedisState :=
  match st with
  | none => none
  | some (data, _) =>
      some ({ data with
              stage := STAGE_ERROR
              error_message := some (error_message.take 1000) }, TTL_SECONDS)

/-- `ProgressTracker.get_progress` (progress_tracker.py:400-432): the stored
object, or `none` when the key is absent. -/
def get_progress (st : RedisState) : Option ProgressData :=
  st.map Prod.fst

end ProgressTracker

/-- `calculate_stage_progress` (progress_tracker.py:457-505): pure helper
mapping (stage, items done, items total) to an overall percentage.  `dict
.get` defaults are `(0, 0)` on the zero-total path and `(0, 100)` on the
main path, exactly as in the source. -/
def calculate_stage_progress (stage : String) (items_processed : Nat)
    (total_items : Nat) : ℚ :=
  if total_items = 0 then
    ((ProgressTracker.STAGE_WEIGHTS stage).getD (0, 0)).1
  else
    let se := (ProgressTracker.STAGE_WEIGHTS stage).getD (0, 100)
    let stage_progress : ℚ := (items_processed : ℚ) / (total_items : ℚ)
    se.1 + ((se.2 - se.1) * stage_progress)

/-! ### Rate-limited data client — `KEGGClient._request` (kegg_api.py:79-182) -/

/-- What one attempt of `self.client.get(endpoint)` can yield: an HTTP
response with a status code and body text, or an `httpx.RequestError`. -/
inductive HttpAttempt where
  | response (status : Nat) (text : String)
  | netError (msg : String)
deriving Repr, DecidableEq

/-- The exceptions `_request` can raise, each recording the attempt budget
mentioned in its message.  `rateLimitExceeded` is `KEGGRateLimitError`
(kegg_api.py:128), the others are `KEGGAPIError` (kegg_api.py:149, 175,
180); `KEGGRateLimitError` subclasses `KEGGAPIError`, so all four are the
client's distinct service error. -/
inductive KeggError where
  | rateLimitExceeded (retries : Nat)
  | apiStatus (status : Nat) (retries : Nat)
  | network (retries : Nat) (msg : String)
  | maxRetriesExceeded (retries : Nat)
deriving Repr, DecidableEq

/-- Observable trace of one `_request` call: its outcome, how many attempts
were consumed, and the backoff delays slept between attempts. -/
structure RequestTrace where
  result : Except KeggError String
  attemptsMade : Nat
  delays : List ℚ
deriving Repr

/-- kegg_api.py:46 — `MAX_RETRIES = 10`. -/
def MAX_RETRIES : Nat := 10

/-- kegg_api.py:47 — `INITIAL_RETRY_DELAY = 1.0`. -/
def INITIAL_RETRY_DELAY : ℚ := 1

/-- kegg_api.py:48 — `MAX_RETRY_DELAY = 30.0`. -/
def MAX_RETRY_DELAY : ℚ := 30

/-- The backoff computed before every retry
(kegg_api.py:114-117, 138-141, 164-167):
`delay = min(INITIAL_RETRY_DELAY * (2 ** attempt), MAX_RETRY_DELAY)`. -/
def backoffDelay (attempt : Nat) : ℚ :=
  min (INITIAL_RETRY_DELAY * 2 ^ attempt) MAX_RETRY_DELAY

/-- A transient failure in the sense of the retry loop: an explicit
rate-limit signal (403/429), any other status `>= 400`, or a network-level
error.  Anything else — a response with status `< 400` — is a success. -/
def isTransient : HttpAttempt → Bool
  | .response status _ => status == 403 || status == 429 || 400 ≤ status
  | .netError _ => true

/-- Body text of a successful attempt (empty for a network error, which is
never a success). -/
def attemptText : HttpAttempt → String
  | .response _ text => text
  | .netError _ => ""

/-- The body of `for attempt in range(retries)` in `_request`
(kegg_api.py:105-182), with the environment's answer to the `attempt`-th
network call given by `responses attempt`.  `remaining` is structural fuel
equal to `retries - attempt`; `remaining = 0` is the fall-through after the
`for` loop (kegg_api.py:180).  The test `attempt < retries - 1` guarding
each retry is `0 < remaining - 1`, i.e. the `r + 1` pattern below with
`0 < r`.  Each retry sleeps `backoffDelay attempt` and continues; the last
allowed attempt raises instead. -/
def requestLoop (responses : Nat → HttpAttempt) (retries : Nat) :
    Nat → Nat → RequestTrace
  | _, 0 => ⟨.error (.maxRetriesExceeded retries), 0, []⟩
  | attempt, r + 1 =>
    match responses attempt with
    | .response status text =>
      if status == 403 || status == 429 then
        if 0 < r then
          let t := requestLoop responses retries (attempt + 1) r
          ⟨t.result, t.attemptsMade + 1, backoffDelay attempt :: t.delays⟩
        else ⟨.error (.rateLimitExceeded retries), 1, []⟩
      else if 400 ≤ status then
        if 0 < r then
          let t := requestLoop responses retries (attempt + 1) r
          ⟨t.result, t.attemptsMade + 1, backoffDelay attempt :: t.delays⟩
        else ⟨.error (.apiStatus status retries), 1, []⟩
      else ⟨.ok text, 1, []⟩
    | .netError msg =>
      if 0 < r then
        let t := requestLoop responses retries (attempt + 1) r
        ⟨t.result, t.attemptsMade + 1, backoffDelay attempt :: t.delays⟩
      else ⟨.error (.network retries msg), 1, []⟩

namespace KEGGClient

/-- `KEGGClient._request(endpoint, retries)` under a given environment:
run the retry loop from attempt 0 with the full budget. -/
def request (responses : Nat → HttpAttempt) (retries : Nat := MAX_RETRIES) :
    RequestTrace :=
  requestLoop responses retries 0 retries

end KEGGClient

/-! ### Ortholog resolution engine — `ortholog_service.py` -/

/-- `OrthologResult` (ortholog_service.py:58-85). -/
structure OrthologResult where
  gene_id : String
  ortholog_gene_id : Option String
  ortholog_species : Option String
  ortholog_name : Option String
  ortholog_description : Option String
  ko_id : Option String
  confidence : ℚ
  method : String
deriving Repr, DecidableEq

/-- `OrthologResult.has_ortholog` (ortholog_service.py:82-85). -/
def OrthologResult.has_ortholog (r : OrthologResult) : Bool :=
  r.ortholog_gene_id.isSome

/-- `OrthologService.MODEL_ORGANISMS` (ortholog_service.py:99-110): the
static preference-weight dict; `none` models a missing key. -/
def MODEL_ORGANISMS : String → Option ℚ
  | "hsa" => some 100
  | "mmu" => some 95
  | "dme" => some 90
  | "cel" => some 90
  | "sce" => some 85
  | "eco" => some 80
  | "bsu" => some 75
  | "ath" => some 80
  | "rno" => some 90
  | "dre" => some 85
  | _ => none

/-- `OrthologService._calculate_ortholog_score` (ortholog_service.py:415-457):
start from 0.0, add the model-organism weight when the candidate organism is
in the dict, then the two cross-domain bonuses. -/
def calculate_ortholog_score (source_org candidate_org : String) : ℚ :=
  let score : ℚ := 0
  let score :=
    match MODEL_ORGANISMS candidate_org with
    | some w => score + w
    | none => score
  let score :=
    if source_org = "eco" ∧ candidate_org = "hsa" then score + 10 else score
  let score :=
    if source_org ∈ (["eco", "bsu"] : List String) ∧
       candidate_org ∈ (["hsa", "mmu", "dme"] : List String)
    then score + 5 else score
  score

/-- Python `candidate_gene_id.split(':')[0]` — the part before the first
colon (the organism code of a `org:gene` id). -/
def orgOf (candidate_gene_id : String) : String :=
  String.mk (candidate_gene_id.toList.takeWhile (fun c => c ≠ ':'))

/-- The per-member body of the candidate loop in
`_find_best_ortholog_in_ko` (ortholog_service.py:362-385): skip ids without
a colon, skip candidates from the excluded (source) organism, skip the
source gene itself; otherwise score the candidate.  A produced triple is
`(candidate_gene_id, candidate_org, score)`. -/
def candidateOf (gene_id exclude_organism : String)
    (candidate_gene_id : String) : Option (String × String × ℚ) :=
  if ¬ candidate_gene_id.toList.contains ':' then none
  else
    let candidate_org := orgOf candidate_gene_id
    if candidate_org = exclude_organism then none
    else if candidate_gene_id = gene_id then none
    else some (candidate_gene_id, candidate_org,
               calculate_ortholog_score exclude_organism candidate_org)

/-- The surviving, scored candidate list of `_find_best_ortholog_in_ko`,
in response order (ortholog_service.py:360-385). -/
def buildCandidates (genes_in_ko : List String)
    (gene_id exclude_organism : String) : List (String × String × ℚ) :=
  genes_in_ko.filterMap (candidateOf gene_id exclude_organism)

/-- The score component of a candidate triple (the sort key `x[2]`). -/
def scoreOf (c : String × String × ℚ) : ℚ := c.2.2

/-- Stable insertion for a descending-by-score order: the new element goes
before the first existing element of strictly smaller score, i.e. after all
earlier elements of greater-or-equal score that are already placed behind
it in `sortDesc`'s fold. -/
def insertDesc (x : String × String × ℚ) :
    List (String × String × ℚ) → List (String × String × ℚ)
  | [] => [x]
  | y :: ys => if scoreOf x < scoreOf y then y :: insertDesc x ys
               else x :: y :: ys

/-- Python's `candidates.sort(key=lambda x: x[2], reverse=True)`
(ortholog_service.py:391): a stable sort to descending score order —
candidates with equal scores keep their first-seen order. -/
def sortDesc (l : List (String × String × ℚ)) :
    List (String × String × ℚ) :=
  l.foldr insertDesc []

/-- `OrthologService._find_best_ortholog_in_ko` (ortholog_service.py:323-413)
with the KO group's member list (the client's answer for this KO) passed in:
empty member list or empty surviving candidate list give `None`; otherwise
the head of the stable descending sort wins and its fields flow into the
result (the description is the placeholder of ortholog_service.py:402). -/
def find_best_ortholog_in_ko (genes_in_ko : List String)
    (gene_id ko_id exclude_organism : String) : Option OrthologResult :=
  if genes_in_ko = [] then none
  else
    match (sortDesc (buildCandidates genes_in_ko gene_id
        exclude_organism)).head? with
    | none => none
    | some cand =>
        some { gene_id := gene_id
               ortholog_gene_id := some cand.1
               ortholog_species := some cand.2.1
               ortholog_name := some cand.1
               ortholog_description := some ("Ortholog from " ++ cand.2.1)
               ko_id := some ko_id
               confidence := cand.2.2
               method := "KEGG_KO" }

/-- What `kegg_client.get_organisms_by_ko(ko_id)` can do for one KO id:
return the member list, raise a `KEGGAPIError` (caught by the per-KO loop
at ortholog_service.py:307-309), or raise any other exception (which
escapes the per-gene coroutine). -/
inductive KoFetch where
  | ok (genes : List String)
  | keggFail (msg : String)
  | otherFail (msg : String)
deriving Repr, DecidableEq

/-- The client as seen by the resolution engine: the organism-wide
gene-to-KO map from `link_genes_to_ko` (which may raise `KEGGAPIError`,
modelled as `.error msg`), and the per-KO group membership answers. -/
structure KeggOracle where
  koMappings : Except String (List (String × List String))
  genesInKo : String → KoFetch

/-- The `NoAssignment` result (ortholog_service.py:282-292). -/
def noAssignmentResult (gene_id : String) : OrthologResult :=
  { gene_id := gene_id, ortholog_gene_id := none, ortholog_species := none
    ortholog_name := none, ortholog_description := none, ko_id := none
    confidence := 0, method := "KEGG_KO_NO_ASSIGNMENT" }

/-- The `NoOrthologInGroup` result (ortholog_service.py:311-321); its
`ko_id` is `ko_ids[0] if ko_ids else None`. -/
def noOrthologResult (gene_id : String) (ko_ids : List String) :
    OrthologResult :=
  { gene_id := gene_id, ortholog_gene_id := none, ortholog_species := none
    ortholog_name := none, ortholog_description := none
    ko_id := ko_ids.head?, confidence := 0
    method := "KEGG_KO_NO_ORTHOLOG" }

/-- The `Error` result created by the batch loop for a gene whose
resolution raised (ortholog_service.py:183-192). -/
def errorResult (gene_id : String) : OrthologResult :=
  { gene_id := gene_id, ortholog_gene_id := none, ortholog_species := none
    ortholog_name := none, ortholog_description := none, ko_id := none
    confidence := 0, method := "ERROR" }

/-- The `for ko_id in ko_ids` loop of `find_ortholog_for_gene`
(ortholog_service.py:296-309): per KO, fetch its members; a `KEGGAPIError`
is caught and the loop continues with the next KO; any other exception
propagates; a found ortholog returns immediately. -/
def searchKoList (oracle : KeggOracle) (gene_id organism_code : String) :
    List String → Except String (Option OrthologResult)
  | [] => .ok none
  | ko_id :: rest =>
    match oracle.genesInKo ko_id with
    | .keggFail _ => searchKoList oracle gene_id organism_code rest
    | .otherFail msg => .error msg
    | .ok genes_in_ko =>
      match find_best_ortholog_in_ko genes_in_ko gene_id ko_id
              organism_code with
      | some ortholog => .ok (some ortholog)
      | none => searchKoList oracle gene_id organism_code rest

/-- `OrthologService.find_ortholog_for_gene` (ortholog_service.py:239-321)
with the pre-fetched `ko_mappings`.  `if ko_mappings and gene_id in
ko_mappings` is the truthiness test on the dict plus key membership; the
fallback leaves `ko_ids` empty (the single-gene lookup is a TODO in the
source).  `.error msg` models an uncaught (non-KEGGAPIError) exception. -/
def find_ortholog_for_gene (oracle : KeggOracle)
    (gene_id organism_code : String)
    (ko_mappings : List (String × List String)) :
    Except String OrthologResult :=
  let ko_ids :=
    if ko_mappings ≠ [] ∧ (ko_mappings.lookup gene_id).isSome
    then (ko_mappings.lookup gene_id).getD [] else []
  if ko_ids = [] then .ok (noAssignmentResult gene_id)
  else
    match searchKoList oracle gene_id organism_code ko_ids with
    | .error msg => .error msg
    | .ok (some ortholog) => .ok ortholog
    | .ok none => .ok (noOrthologResult gene_id ko_ids)

/-- One entry of the fetched gene list: the `{'name': ..., 'description':
...}` dicts produced by `list_organism_genes` (kegg_api.py:216-219). -/
structure GeneData where
  name : String
  description : String
deriving Repr, DecidableEq

/-- The Python exceptions tracked by the orchestration-level model. -/
inductive PyExn where
  | valueError (msg : String)
  | keggApiError (msg : String)
  | zeroDivisionError
  | attributeError (msg : String)
deriving Repr, DecidableEq

/-- Python `str(e)` for the modelled exceptions. -/
def PyExn.str : PyExn → String
  | .valueError msg => msg
  | .keggApiError msg => msg
  | .zeroDivisionError => "division by zero"
  | .attributeError msg => msg

/-- `OrthologService.find_orthologs_for_organism`
(ortholog_service.py:122-203).  Order of effects follows the source: the
organism-wide KO-mapping fetch (line 151, whose `KEGGAPIError` propagates),
then the coverage log line 153-156 whose f-string divides by `len(genes)`
— raising `ZeroDivisionError` when `genes` is empty — then the
semaphore-bounded `asyncio.gather(..., return_exceptions=True)` whose
results are in input order, with any exception from an individual gene
replaced by the `ERROR` result for that gene (that per-gene slot is
`resolveOrEncode` below). -/
def resolveOrEncode (oracle : KeggOracle) (organism_code : String)
    (ko_mappings : List (String × List String)) (gene : GeneData) :
    OrthologResult :=
  match find_ortholog_for_gene oracle gene.name organism_code
          ko_mappings with
  | .ok result => result
  | .error _ => errorResult gene.name

def find_orthologs_for_organism (oracle : KeggOracle)
    (organism_code : String) (genes : List GeneData) :
    Except PyExn (List OrthologResult) :=
  match oracle.koMappings with
  | .error msg => .error (.keggApiError msg)
  | .ok ko_mappings =>
    if genes.length = 0 then .error .zeroDivisionError
    else
      .ok (genes.map (resolveOrEncode oracle organism_code ko_mappings))

/-! ### Job orchestrator — `process_organism_job` (process_job.py:121-499) -/

/-- The `Organism` row (models/organism.py as used by the job): status,
job reference and truncated error text are the mutable fields the
orchestrator writes. -/
structure OrganismRec where
  id : Nat
  code : String
  name : String
  status : Option String
  job_id : Option String
  job_error : Option String
deriving Repr, DecidableEq

/-- The `Gene` row (models/gene.py as used by the job): source fields plus
the mutable ortholog fields filled during the resolve stage. -/
structure GeneRow where
  organism_id : Nat
  name : String
  description : String
  ortholog_name : Option String
  ortholog_description : Option String
  ortholog_species : Option String
  ortholog_length : Option Nat
  ortholog_sw_score : Option ℚ
  ortholog_identity : Option ℚ
deriving Repr, DecidableEq

/-- The durable relational store as the job sees it. -/
structure DB where
  organisms : List OrganismRec
  genes : List GeneRow
deriving Repr, DecidableEq

/-- `SELECT ... FROM organisms WHERE id = organism_id`
(process_job.py:201-204). -/
def DB.findOrganism (db : DB) (organism_id : Nat) : Option OrganismRec :=
  db.organisms.find? (fun o => o.id = organism_id)

/-- Commit of a mutated organism object: every row with its id takes the
new field values. -/
def DB.setOrganism (db : DB) (o : OrganismRec) : DB :=
  { db with organisms := db.organisms.map (fun x => if x.id = o.id then o else x) }

/-- process_job.py:113 — `BATCH_SIZE = 500`. -/
def BATCH_SIZE : Nat := 500

/-- process_job.py:118 — `PROGRESS_UPDATE_INTERVAL = 100`. -/
def PROGRESS_UPDATE_INTERVAL : Nat := 100

/-- The batch-insert loop `for i in range(0, len(gene_objects),
BATCH_SIZE): session.add_all(batch); await session.commit()`
(process_job.py:312-315): append each chunk of at most 500 rows to the
table in turn. -/
def insertInBatches (db : List GeneRow) : List GeneRow → List GeneRow
  | [] => db
  | g :: gs =>
      insertInBatches (db ++ (g :: gs).take BATCH_SIZE)
        ((g :: gs).drop BATCH_SIZE)
termination_by rows => rows.length
decreasing_by simp [BATCH_SIZE]; omega

/-- One `Gene(...)` object built for the bulk insert
(process_job.py:288-300): ortholog fields start as NULL. -/
def mkGeneRow (organism_id : Nat) (gene_data : GeneData) : GeneRow :=
  { organism_id := organism_id
    name := gene_data.name
    description := gene_data.description
    ortholog_name := none
    ortholog_description := none
    ortholog_species := none
    ortholog_length := none
    ortholog_sw_score := none
    ortholog_identity := none }

/-- The Storing stage's net effect on the gene table
(process_job.py:268-315).  The statement executed at process_job.py:279-281
is `session.execute(select(Gene).where(...))` — a SELECT, not a DELETE —
so, despite the surrounding comments, no pre-existing row is removed before
the chunked insert of the freshly fetched genes. -/
def storing_stage (dbGenes : List GeneRow) (organism_id : Nat)
    (genes_data : List GeneData) : List GeneRow :=
  insertInBatches dbGenes (genes_data.map (mkGeneRow organism_id))

/-- Replace the first row satisfying `p` (used through `updateLast`). -/
def replaceFirst (p : GeneRow → Bool) (f : GeneRow → GeneRow) :
    List GeneRow → List GeneRow
  | [] => []
  | g :: gs => if p g then f g :: gs else g :: replaceFirst p f gs

/-- Mutate the last row satisfying `p`: the dict comprehension
`{gene.name: gene for gene in db_genes}` (process_job.py:377) keeps, for a
duplicated name, the object of the last row in SELECT order, and the loop
mutates that object. -/
def updateLast (rows : List GeneRow) (p : GeneRow → Bool)
    (f : GeneRow → GeneRow) : List GeneRow :=
  (replaceFirst p f rows.reverse).reverse

/-- The ortholog-field writes of process_job.py:393-399. -/
def applyOrtholog (r : OrthologResult) (g : GeneRow) : GeneRow :=
  { g with ortholog_name := r.ortholog_gene_id
           ortholog_description := r.ortholog_description
           ortholog_species := r.ortholog_species
           ortholog_identity := some r.confidence }

/-- The per-result body of the gene-update loop (process_job.py:383-421):
skip results whose gene is not in the lookup; write the ortholog fields
when one was found; count; and every `PROGRESS_UPDATE_INTERVAL` processed
genes push a tracker update computed via `calculate_stage_progress`. -/
def updateGenesStep (organism_id : Nat) (total_genes : Nat)
    (acc : DB × RedisState × Nat × Nat) (r : OrthologResult) :
    DB × RedisState × Nat × Nat :=
  let (db, redis, genes_processed, genes_with_orthologs) := acc
  if ¬ db.genes.any (fun g => g.organism_id == organism_id &&
        g.name == r.gene_id) then acc
  else
    let db := if r.has_ortholog then
        { db with genes := (updateLast db.genes
            (fun g => g.organism_id == organism_id && g.name == r.gene_id)
            (applyOrtholog r)) }
      else db
    let genes_with_orthologs := if r.has_ortholog then
        genes_with_orthologs + 1 else genes_with_orthologs
    let genes_processed := genes_processed + 1
    let redis := if genes_processed % PROGRESS_UPDATE_INTERVAL = 0 then
        ProgressTracker.update redis ProgressTracker.STAGE_FINDING_ORTHOLOGS
          (calculate_stage_progress ProgressTracker.STAGE_FINDING_ORTHOLOGS
            genes_processed total_genes)
          (some genes_processed) (some genes_with_orthologs)
      else redis
    (db, redis, genes_processed, genes_with_orthologs)

/-- The whole gene-update loop (process_job.py:380-424). -/
def updateGenesLoop (db : DB) (redis : RedisState) (organism_id : Nat)
    (total_genes : Nat) (ortholog_results : List OrthologResult) :
    DB × RedisState × Nat × Nat :=
  ortholog_results.foldl (updateGenesStep organism_id total_genes)
    (db, redis, 0, 0)

/-- The environment of one job run: the gene-list fetch of stage 1 (which
may raise `KEGGAPIError`, modelled as `.error msg`) and the client answers
consumed by the resolution stage. -/
structure JobOracle where
  fetchGenes : Except String (List GeneData)
  kegg : KeggOracle

/-- The final-statistics dict returned by the job (process_job.py:458-465). -/
structure JobStats where
  organism_id : Nat
  organism_code : String
  total_genes : Nat
  genes_with_orthologs : Nat
  coverage_percent : ℚ
  status : String
deriving Repr, DecidableEq

/-- The two `except` blocks of process_job.py:467-499 for the case where
the `organism` variable holds a loaded record: set its status to `error`
and its `job_error` to the truncated message, commit, call
`tracker.error`, and re-raise the original exception. -/
def jobFail (db : DB) (redis : RedisState) (organism : OrganismRec)
    (error_msg : String) (exn : PyExn) :
    DB × RedisState × Except PyExn JobStats :=
  let organism := { organism with
                    status := some "error"
                    job_error := some (error_msg.take 1000) }
  let db := db.setOrganism organism
  let redis := ProgressTracker.error redis error_msg
  (db, redis, .error exn)

/-- The message of Python's `AttributeError` raised when the `except`
handler evaluates `organism.status = "error"` while `organism` is `None`
(process_job.py:474 / 491 after the `raise ValueError` of line 211). -/
def attrErrorMsg : String :=
  "NoneType object has no attribute status"

/-- `process_organism_job` (process_job.py:121-499) as a function of the
durable store, the tracker's Redis slice, and the network environment.

Stage 0 loads the organism; when it is absent, the `raise ValueError` of
process_job.py:211 lands in the generic handler whose first statement
`organism.status = "error"` (line 491) dereferences `None` — the handler
itself raises `AttributeError` before any write, so the store and tracker
are untouched and the `AttributeError` (not the `ValueError`) propagates.

Otherwise the organism is marked pending, progress starts, and the stages
run; a `KEGGAPIError` (fetch, or the KO-mapping fetch inside resolution)
or any unexpected exception (e.g. the `ZeroDivisionError` the resolution
raises on an empty gene list) takes the corresponding failure path of
`jobFail`. -/
def process_organism_job (db : DB) (redis : RedisState) (oracle : JobOracle)
    (job_id : String) (organism_id : Nat) :
    DB × RedisState × Except PyExn JobStats :=
  match db.findOrganism organism_id with
  | none =>
      (db, redis, .error (.attributeError attrErrorMsg))
  | some organism0 =>
      let organism := { organism0 with
                        status := some "pending"
                        job_id := some job_id
                        job_error := none }
      let db := db.setOrganism organism
      let redis := ProgressTracker.start redis organism.id organism.code 0
      let redis := ProgressTracker.update redis
        ProgressTracker.STAGE_FETCHING_GENES 0
      match oracle.fetchGenes with
      | .error msg =>
          jobFail db redis organism ("KEGG API error: " ++ msg.take 900)
            (.keggApiError msg)
      | .ok genes_data =>
          let total_genes := genes_data.length
          let redis := ProgressTracker.update redis
            ProgressTracker.STAGE_FETCHING_GENES 10 none none none
            (some total_genes)
          let redis := ProgressTracker.update redis
            ProgressTracker.STAGE_STORING_GENES 10 none none none
            (some total_genes)
          let db := { db with
                      genes := storing_stage db.genes organism.id genes_data }
          let redis := ProgressTracker.update redis
            ProgressTracker.STAGE_STORING_GENES 15 (some 0) (some 0)
          let redis := ProgressTracker.update redis
            ProgressTracker.STAGE_FINDING_ORTHOLOGS 15
          match find_orthologs_for_organism oracle.kegg organism.code
                  genes_data with
          | .error e =>
              match e with
              | .keggApiError msg =>
                  jobFail db redis organism
                    ("KEGG API error: " ++ (PyExn.str e).take 900)
                    (.keggApiError msg)
              | _ =>
                  jobFail db redis organism
                    ("Unexpected error: " ++ (PyExn.str e).take 900) e
          | .ok ortholog_results =>
              let st := updateGenesLoop db redis organism.id total_genes
                ortholog_results
              let db := st.1
              let redis := st.2.1
              let genes_with_orthologs := st.2.2.2
              let coverage_percent : ℚ :=
                if 0 < total_genes then
                  (genes_with_orthologs : ℚ) / (total_genes : ℚ) * 100
                else 0
              let organism := { organism with
                                status := some "complete"
                                job_error := none }
              let db := db.setOrganism organism
              let redis := ProgressTracker.complete redis
                (some { total_genes := total_genes
                        genes_with_orthologs := genes_with_orthologs
                        coverage_percent := round2 coverage_percent
                        method := "KEGG_KO" })
              (db, redis, .ok { organism_id := organism.id
                                organism_code := organism.code
                                total_genes := total_genes
                                genes_with_orthologs := genes_with_orthologs
                                coverage_percent := coverage_percent
                                status := "complete" })

/-! ### Theorems -/

theorem stage_weights_bounds (stage : String) (s e : ℚ)
    (hw : ProgressTracker.STAGE_WEIGHTS stage = some (s, e)) :
    0 ≤ s ∧ s ≤ e ∧ e ≤ 100 := by
  unfold ProgressTracker.STAGE_WEIGHTS at hw
  split at hw <;>
    first
      | (simp only [Option.some.injEq, Prod.mk.injEq] at hw
         obtain ⟨rfl, rfl⟩ := hw
         norm_num)
      | simp at hw

/-- C9: for each of the three known stages, `calculate_stage_progress` is
non-decreasing in the processed count, returns the stage's range start at
`processed = 0` and at `total = 0`, and returns the stage's range end at
`processed = total` with `total > 0`. -/
theorem c9_stage_progress_shape (stage : String) (s e : ℚ)
    (hw : ProgressTracker.STAGE_WEIGHTS stage = some (s, e)) :
    (∀ p q t : Nat, p ≤ q →
       calculate_stage_progress stage p t ≤ calculate_stage_progress stage q t) ∧
    (∀ t : Nat, calculate_stage_progress stage 0 t = s) ∧
    (∀ p : Nat, calculate_stage_progress stage p 0 = s) ∧
    (∀ t : Nat, 0 < t → calculate_stage_progress stage t t = e) := by
  obtain ⟨hs0, hse, he100⟩ := stage_weights_bounds stage s e hw
  refine ⟨?_, ?_, ?_, ?_⟩
  · intro p q t hpq
    by_cases ht : t = 0
    · simp [calculate_stage_progress, ht]
    · simp only [calculate_stage_progress, ht, if_false, hw, Option.getD_some]
      have hpq' : (p : ℚ) ≤ (q : ℚ) := by exact_mod_cast hpq
      have hes : (0 : ℚ) ≤ e - s := by linarith
      gcongr
  · intro t
    by_cases ht : t = 0
    · simp [calculate_stage_progress, ht, hw]
    · simp [calculate_stage_progress, ht, hw]
  · intro p
    simp [calculate_stage_progress, hw]
  · intro t ht
    have ht' : (t : ℚ) ≠ 0 := by positivity
    simp only [calculate_stage_progress, Nat.pos_iff_ne_zero.mp ht, if_false, hw,
      Option.getD_some]
    field_simp

/-- Witness for C9 at the `fetching_genes` stage. -/
theorem c9_stage_progress_shape_witness :
    calculate_stage_progress "fetching_genes" 0 5 = 0 ∧
    calculate_stage_progress "fetching_genes" 7 0 = 0 ∧
    calculate_stage_progress "fetching_genes" 5 5 = 10 :=
  ⟨(c9_stage_progress_shape "fetching_genes" 0 10 rfl).2.1 5,
   (c9_stage_progress_shape "fetching_genes" 0 10 rfl).2.2.1 7,
   (c9_stage_progress_shape "fetching_genes" 0 10 rfl).2.2.2 5 (by decide)⟩

/-- C2 (amended): neither the tracker nor the helper clamps.  `update`
stores the supplied percentage rounded to two decimal places exactly as
given (no clamping to the stage range or to [0,100]); the recorded value
stays within the stage's range and within [0,100] for the three known
stages exactly because the caller passes `items_processed ≤ total_items`,
in which case `calculate_stage_progress` is bounded as shown here. -/
theorem c2_amended_no_clamping (stage : String) (s e : ℚ)
    (hw : ProgressTracker.STAGE_WEIGHTS stage = some (s, e))
    (p t : Nat) (hpt : p ≤ t) :
    (s ≤ calculate_stage_progress stage p t ∧
     calculate_stage_progress stage p t ≤ e ∧
     0 ≤ calculate_stage_progress stage p t ∧
     calculate_stage_progress stage p t ≤ 100) ∧
    (∀ (d : ProgressData) (ttl : Nat) (st2 : String) (q : ℚ)
       (gp gw er tg : Option Nat),
       ProgressTracker.update (some (d, ttl)) st2 q gp gw er tg =
         some ({ d with
                 stage := st2
                 progress := round2 q
                 genes_processed := gp.getD d.genes_processed
                 genes_with_orthologs := gw.getD d.genes_with_orthologs
                 errors := er.getD d.errors
                 total_genes := tg.getD d.total_genes },
               ProgressTracker.TTL_SECONDS)) := by
  obtain ⟨hs0, hse, he100⟩ := stage_weights_bounds stage s e hw
  constructor
  · by_cases ht : t = 0
    · have hv : calculate_stage_progress stage p t = s := by
        simp [calculate_stage_progress, ht, hw]
      rw [hv]
      exact ⟨le_refl s, hse, hs0, by linarith⟩
    · have ht' : (0 : ℚ) < (t : ℚ) := by positivity
      have h0 : (0 : ℚ) ≤ (p : ℚ) / (t : ℚ) := by positivity
      have h1 : (p : ℚ) / (t : ℚ) ≤ 1 := by
        rw [div_le_one ht']
        exact_mod_cast hpt
      simp only [calculate_stage_progress, ht, if_false, hw, Option.getD_some]
      refine ⟨by nlinarith, by nlinarith, by nlinarith, by nlinarith⟩
  · intro d ttl st2 q gp gw er tg
    rfl

/-- Counterexample to C2 as stated: with `items_processed = 2` and
`total_items = 1` the computed percentage is 185, outside the stage range
and outside [0,100], and `update` records it unclamped. -/
theorem c2_counterexample_value_not_clamped :
    calculate_stage_progress "finding_orthologs" 2 1 = 185 ∧
    ¬ (calculate_stage_progress "finding_orthologs" 2 1 ≤ 100) ∧
    (ProgressTracker.update
        (some ({ organism_id := 1, organism_code := "eco",
                 stage := "finding_orthologs", progress := 15,
                 total_genes := 1, genes_processed := 0,
                 genes_with_orthologs := 0, errors := 0 }, 86400))
        "finding_orthologs" 185).map (fun x => x.1.progress) =
      some 185 := by
  have h185 : calculate_stage_progress "finding_orthologs" 2 1 = 185 := by
    have hw : ProgressTracker.STAGE_WEIGHTS "finding_orthologs" =
        some (15, 100) := rfl
    simp [calculate_stage_progress, hw]
    norm_num
  have hround : round2 185 = 185 := by
    have hfloor : (⌊(185 : ℚ) * 100⌋ : ℤ) = 18500 := by
      norm_num
    unfold round2 roundHalfToEven
    rw [hfloor]
    norm_num
  refine ⟨h185, by rw [h185]; norm_num, ?_⟩
  simp [ProgressTracker.update, hround]

/-- Witness for C2 (amended) at the `storing_genes` stage with 3 of 4
items processed. -/
theorem c2_amended_no_clamping_witness :
    10 ≤ calculate_stage_progress "storing_genes" 3 4 ∧
    calculate_stage_progress "storing_genes" 3 4 ≤ 15 ∧
    0 ≤ calculate_stage_progress "storing_genes" 3 4 ∧
    calculate_stage_progress "storing_genes" 3 4 ≤ 100 :=
  (c2_amended_no_clamping "storing_genes" 10 15 rfl 3 4 (by decide)).1

/-- C10: when the progress key is absent, `complete` and `error` write
nothing — the key stays absent and `get_progress` still answers `none` —
whereas `update` recreates a minimal progress entry from its arguments. -/
theorem c10_absent_key_frame (stage : String) (q : ℚ)
    (gp gw er tg : Option Nat) (fs : Option FinalStats) (m : String) :
    ProgressTracker.complete none fs = none ∧
    ProgressTracker.error none m = none ∧
    ProgressTracker.get_progress (ProgressTracker.complete none fs) = none ∧
    ProgressTracker.get_progress (ProgressTracker.error none m) = none ∧
    ProgressTracker.update none stage q gp gw er tg =
      some ({ organism_id := 0, organism_code := "unknown", stage := stage,
              progress := q, total_genes := tg.getD 0,
              genes_processed := gp.getD 0,
              genes_with_orthologs := gw.getD 0,
              errors := er.getD 0 }, ProgressTracker.TTL_SECONDS) :=
  ⟨rfl, rfl, rfl, rfl, rfl⟩

theorem insertInBatches_eq_append (db rows : List GeneRow) :
    insertInBatches db rows = db ++ rows := by
  induction db, rows using insertInBatches.induct with
  | case1 db => simp [insertInBatches]
  | case2 db g gs ih =>
      rw [insertInBatches, ih, List.append_assoc, List.take_append_drop]

/-- C1 is violated by the code: the Storing stage never deletes — the
statement at process_job.py:279-281 is a SELECT — so re-running it for an
organism that already has a row for `eco:b0001` leaves both the stale row
and the newly inserted one: two rows for the same gene name instead of
exactly the newly fetched set. -/
theorem c1_storing_keeps_stale_rows :
    storing_stage [mkGeneRow 1 { name := "eco:b0001", description := "old run" }]
        1 [{ name := "eco:b0001", description := "thrA" }] =
      [mkGeneRow 1 { name := "eco:b0001", description := "old run" },
       mkGeneRow 1 { name := "eco:b0001", description := "thrA" }] ∧
    ((storing_stage
        [mkGeneRow 1 { name := "eco:b0001", description := "old run" }]
        1 [{ name := "eco:b0001", description := "thrA" }]).filter
      (fun g => g.organism_id == 1 && g.name == "eco:b0001")).length = 2 := by
  have h : storing_stage
      [mkGeneRow 1 { name := "eco:b0001", description := "old run" }]
      1 [{ name := "eco:b0001", description := "thrA" }] =
      [mkGeneRow 1 { name := "eco:b0001", description := "old run" },
       mkGeneRow 1 { name := "eco:b0001", description := "thrA" }] := by
    rw [storing_stage, insertInBatches_eq_append]
    rfl
  refine ⟨h, ?_⟩
  rw [h]
  rfl


/-- A success in the sense of the retry loop: an HTTP response whose status
is below 400 (403 and 429 are both at least 400, so neither transient
branch fires for a success). -/
def isSuccess : HttpAttempt → Bool
  | .response status _ => status < 400
  | .netError _ => false

theorem requestLoop_retry (responses : Nat → HttpAttempt) (retries a r : Nat)
    (h : isTransient (responses a) = true) (hr : 0 < r) :
    requestLoop responses retries a (r + 1) =
      ⟨(requestLoop responses retries (a + 1) r).result,
       (requestLoop responses retries (a + 1) r).attemptsMade + 1,
       backoffDelay a :: (requestLoop responses retries (a + 1) r).delays⟩ := by
  rw [requestLoop]
  rcases hresp : responses a with ⟨status, text⟩ | msg
  · rw [hresp] at h
    simp only [isTransient, Bool.or_eq_true, beq_iff_eq,
      decide_eq_true_eq] at h
    by_cases h403 : (status == 403 || status == 429) = true
    · simp [h403, hr]
    · have h400 : 400 ≤ status := by
        simp only [Bool.or_eq_true, beq_iff_eq] at h403
        tauto
      simp [h403, h400, hr]
  · simp [hr]

theorem requestLoop_success_now (responses : Nat → HttpAttempt)
    (retries a r : Nat) (h : isSuccess (responses a) = true) :
    requestLoop responses retries a (r + 1) =
      ⟨.ok (attemptText (responses a)), 1, []⟩ := by
  rw [requestLoop]
  rcases hresp : responses a with ⟨status, text⟩ | msg
  · rw [hresp] at h
    simp only [isSuccess, decide_eq_true_eq] at h
    have h403 : ¬ ((status == 403 || status == 429) = true) := by
      simp only [Bool.or_eq_true, beq_iff_eq]
      omega
    have h400 : ¬ (400 ≤ status) := by omega
    simp [h403, h400, attemptText, hresp]
  · rw [hresp] at h
    simp [isSuccess] at h

theorem requestLoop_fail_last (responses : Nat → HttpAttempt)
    (retries a : Nat) (h : isTransient (responses a) = true) :
    ∃ e, requestLoop responses retries a 1 =
      ⟨.error e, 1, []⟩ := by
  rw [show (1 : Nat) = 0 + 1 from rfl, requestLoop]
  rcases hresp : responses a with ⟨status, text⟩ | msg
  · by_cases h403 : (status == 403 || status == 429) = true
    · exact ⟨.rateLimitExceeded retries, by simp [h403]⟩
    · rw [hresp] at h
      simp only [isTransient, Bool.or_eq_true, beq_iff_eq,
        decide_eq_true_eq] at h
      have h400 : 400 ≤ status := by
        simp only [Bool.or_eq_true, beq_iff_eq] at h403
        tauto
      exact ⟨.apiStatus status retries, by simp [h403, h400]⟩
  · exact ⟨.network retries msg, by simp⟩

theorem backoff_cons_range (a k : Nat) :
    backoffDelay a :: (List.range k).map (fun i => backoffDelay (a + 1 + i)) =
      (List.range (k + 1)).map (fun i => backoffDelay (a + i)) := by
  rw [List.range_succ_eq_map, List.map_cons, List.map_map]
  refine congrArg₂ List.cons (by rw [Nat.add_zero]) ?_
  refine List.map_congr_left ?_
  intro i _
  simp only [Function.comp_apply]
  congr 1
  omega

theorem requestLoop_success_trace (responses : Nat → HttpAttempt)
    (retries : Nat) :
    ∀ k a r, k < r →
      (∀ i, i < k → isTransient (responses (a + i)) = true) →
      isSuccess (responses (a + k)) = true →
      requestLoop responses retries a r =
        ⟨.ok (attemptText (responses (a + k))), k + 1,
         (List.range k).map (fun i => backoffDelay (a + i))⟩ := by
  intro k
  induction k with
  | zero =>
      intro a r hk _ hsucc
      obtain ⟨r'', rfl⟩ : ∃ r'', r = r'' + 1 := ⟨r - 1, by omega⟩
      rw [Nat.add_zero] at hsucc
      rw [requestLoop_success_now responses retries a r'' hsucc]
      simp
  | succ k ih =>
      intro a r hk htrans hsucc
      obtain ⟨r'', rfl⟩ : ∃ r'', r = r'' + 1 := ⟨r - 1, by omega⟩
      have hr'' : 0 < r'' := by omega
      have htr0 : isTransient (responses a) = true := by
        simpa using htrans 0 (by omega)
      rw [requestLoop_retry responses retries a r'' htr0 hr'']
      have hrec := ih (a + 1) r'' (by omega)
        (fun i hi => by
          simpa [show a + 1 + i = a + (i + 1) from by omega]
            using htrans (i + 1) (by omega))
        (by simpa [show a + 1 + k = a + (k + 1) from by omega] using hsucc)
      rw [hrec]
      rw [show a + 1 + k = a + (k + 1) from by omega, backoff_cons_range]

theorem requestLoop_allfail_trace (responses : Nat → HttpAttempt)
    (retries : Nat) :
    ∀ r a, 0 < r →
      (∀ i, i < r → isTransient (responses (a + i)) = true) →
      ∃ e, requestLoop responses retries a r =
        ⟨.error e, r, (List.range (r - 1)).map (fun i => backoffDelay (a + i))⟩ := by
  intro r
  induction r with
  | zero => intro a h; omega
  | succ r ih =>
      intro a _ htrans
      have htr0 : isTransient (responses a) = true := by
        simpa using htrans 0 (by omega)
      by_cases hr : 0 < r
      · obtain ⟨r', rfl⟩ : ∃ r', r = r' + 1 := ⟨r - 1, by omega⟩
        obtain ⟨e, he⟩ := ih (a + 1) hr (fun i hi => by
          simpa [show a + 1 + i = a + (i + 1) from by omega]
            using htrans (i + 1) (by omega))
        refine ⟨e, ?_⟩
        rw [requestLoop_retry responses retries a (r' + 1) htr0 hr, he]
        simp only [Nat.add_sub_cancel]
        rw [backoff_cons_range]
      · have hr0 : r = 0 := by omega
        subst hr0
        obtain ⟨e, he⟩ := requestLoop_fail_last responses retries a htr0
        exact ⟨e, by simpa using he⟩

/-- C6: with retry budget `R`, a run of transient failures on the first `k`
attempts followed by a success on attempt `k` (zero-based; in particular
`k = R - 1` gives R−1 failures then success) returns the successful body
after exactly `k + 1` attempts with the backoff `min(initialDelay *
2^attempt, maxDelay)` slept before each retry and no further attempts after
the success; `R` consecutive transient failures raise the service error
after exactly `R` attempts. -/
theorem c6_request_retry_contract (responses : Nat → HttpAttempt)
    (R k : Nat) :
    (k < R → (∀ i, i < k → isTransient (responses i) = true) →
      isSuccess (responses k) = true →
      KEGGClient.request responses R =
        ⟨.ok (attemptText (responses k)), k + 1,
         (List.range k).map backoffDelay⟩) ∧
    (0 < R → (∀ i, i < R → isTransient (responses i) = true) →
      ∃ e, KEGGClient.request responses R =
        ⟨.error e, R, (List.range (R - 1)).map backoffDelay⟩) := by
  constructor
  · intro hk htrans hsucc
    have h := requestLoop_success_trace responses R k 0 R hk
      (fun i hi => by simpa using htrans i hi) (by simpa using hsucc)
    simpa [KEGGClient.request] using h
  · intro hR htrans
    obtain ⟨e, he⟩ := requestLoop_allfail_trace responses R R 0 hR
      (fun i hi => by simpa using htrans i hi)
    exact ⟨e, by simpa [KEGGClient.request] using he⟩

/-- Environment for the C6 witness: two network errors, then success. -/
def respC6 : Nat → HttpAttempt := fun i =>
  if i < 2 then .netError "connection reset" else .response 200 "okbody"

/-- Witness for C6: with budget 3 and the third attempt succeeding, the
call returns the body after exactly 3 attempts with delays for attempts 0
and 1. -/
theorem c6_request_retry_contract_witness :
    KEGGClient.request respC6 3 =
      ⟨.ok (attemptText (respC6 2)), 2 + 1, (List.range 2).map backoffDelay⟩ :=
  (c6_request_retry_contract respC6 3 2).1 (by decide) (by decide) (by decide)

/-- The first element of maximal score in a candidate list (the element a
stable descending sort puts first). -/
def firstMax : List (String × String × ℚ) → Option (String × String × ℚ)
  | [] => none
  | x :: xs =>
    match firstMax xs with
    | none => some x
    | some y => if scoreOf x < scoreOf y then some y else some x

theorem firstMax_cons (x : String × String × ℚ)
    (xs : List (String × String × ℚ)) :
    firstMax (x :: xs) =
      match firstMax xs with
      | none => some x
      | some y => if scoreOf x < scoreOf y then some y else some x := rfl

theorem head_insertDesc (x : String × String × ℚ)
    (s : List (String × String × ℚ)) :
    (insertDesc x s).head? =
      match s.head? with
      | none => some x
      | some y => if scoreOf x < scoreOf y then some y else some x := by
  cases s with
  | nil => rfl
  | cons y ys =>
      rw [insertDesc]
      by_cases hxy : scoreOf x < scoreOf y
      · rw [if_pos hxy]
        simp [hxy]
      · rw [if_neg hxy]
        simp [hxy]

theorem head_sortDesc_eq_firstMax (l : List (String × String × ℚ)) :
    (sortDesc l).head? = firstMax l := by
  induction l with
  | nil => rfl
  | cons x xs ih =>
      have h1 : sortDesc (x :: xs) = insertDesc x (sortDesc xs) := rfl
      rw [h1, head_insertDesc, ih, firstMax_cons]

theorem eq_nil_of_firstMax_eq_none (l : List (String × String × ℚ))
    (h : firstMax l = none) : l = [] := by
  cases l with
  | nil => rfl
  | cons z zs =>
      exfalso
      rw [firstMax_cons] at h
      rcases hz : firstMax zs with _ | w
      · rw [hz] at h
        exact Option.noConfusion (show some z = none from h)
      · rw [hz] at h
        replace h : (if scoreOf z < scoreOf w then some w else some z) =
            none := h
        split_ifs at h

theorem firstMax_spec (l : List (String × String × ℚ))
    (c : String × String × ℚ) (h : firstMax l = some c) :
    c ∈ l ∧ (∀ d ∈ l, scoreOf d ≤ scoreOf c) ∧
    ∃ pre post, l = pre ++ c :: post ∧ ∀ d ∈ pre, scoreOf d < scoreOf c := by
  induction l generalizing c with
  | nil => cases h
  | cons x xs ih =>
      rw [firstMax_cons] at h
      rcases hm : firstMax xs with _ | y
      · rw [hm] at h
        obtain rfl : x = c := Option.some.inj (show some x = some c from h)
        have hxs : xs = [] := eq_nil_of_firstMax_eq_none xs hm
        subst hxs
        refine ⟨List.mem_singleton_self x, ?_, [], [], rfl, by simp⟩
        intro d hd
        rw [List.mem_singleton] at hd
        subst hd
        exact le_refl _
      · rw [hm] at h
        replace h : (if scoreOf x < scoreOf y then some y else some x) =
            some c := h
        obtain ⟨hy_mem, hy_max, pre, post, hy_split, hy_pre⟩ := ih y hm
        by_cases hxy : scoreOf x < scoreOf y
        · rw [if_pos hxy] at h
          obtain rfl : y = c := Option.some.inj h
          refine ⟨List.mem_cons_of_mem x hy_mem, ?_,
            x :: pre, post, by rw [hy_split, List.cons_append], ?_⟩
          · intro d hd
            rcases List.mem_cons.mp hd with hd | hd
            · subst hd
              exact le_of_lt hxy
            · exact hy_max d hd
          · intro d hd
            rcases List.mem_cons.mp hd with hd | hd
            · subst hd
              exact hxy
            · exact hy_pre d hd
        · rw [if_neg hxy] at h
          obtain rfl : x = c := Option.some.inj h
          push_neg at hxy
          refine ⟨List.mem_cons_self x xs, ?_, [], xs, rfl, by simp⟩
          intro d hd
          rcases List.mem_cons.mp hd with hd | hd
          · subst hd
            exact le_refl _
          · exact le_trans (hy_max d hd) hxy

theorem buildCandidates_score (genes_in_ko : List String)
    (gene_id exclude_organism : String) (c : String × String × ℚ)
    (h : c ∈ buildCandidates genes_in_ko gene_id exclude_organism) :
    c.2.2 = calculate_ortholog_score exclude_organism c.2.1 ∧
    c.2.1 ≠ exclude_organism := by
  rw [buildCandidates, List.mem_filterMap] at h
  obtain ⟨a, _, ha⟩ := h
  simp only [candidateOf] at ha
  split at ha
  · cases ha
  · split at ha
    · cases ha
    · split at ha
      · cases ha
      · cases ha
        constructor
        · rfl
        · assumption

theorem model_organism_weight_bounds (org : String) (w : ℚ)
    (h : MODEL_ORGANISMS org = some w) : 0 ≤ w ∧ w ≤ 100 := by
  unfold MODEL_ORGANISMS at h
  split at h <;>
    first
      | (simp only [Option.some.injEq] at h
         subst h
         norm_num)
      | cases h

theorem calculate_ortholog_score_bounds (source_org candidate_org : String) :
    0 ≤ calculate_ortholog_score source_org candidate_org ∧
    calculate_ortholog_score source_org candidate_org ≤ 115 := by
  rcases hmo : MODEL_ORGANISMS candidate_org with _ | w
  · simp only [calculate_ortholog_score, hmo]
    split_ifs <;> constructor
    · show (0 : ℚ) ≤ 0 + 10 + 5
      norm_num
    · show (0 : ℚ) + 10 + 5 ≤ 115
      norm_num
    · show (0 : ℚ) ≤ 0 + 5
      norm_num
    · show (0 : ℚ) + 5 ≤ 115
      norm_num
    · show (0 : ℚ) ≤ 0 + 10
      norm_num
    · show (0 : ℚ) + 10 ≤ 115
      norm_num
    · show (0 : ℚ) ≤ 0
      norm_num
    · show (0 : ℚ) ≤ 115
      norm_num
  · obtain ⟨hw0, hw100⟩ := model_organism_weight_bounds candidate_org w hmo
    simp only [calculate_ortholog_score, hmo]
    split_ifs <;> constructor
    · show (0 : ℚ) ≤ 0 + w + 10 + 5
      linarith
    · show (0 : ℚ) + w + 10 + 5 ≤ 115
      linarith
    · show (0 : ℚ) ≤ 0 + w + 5
      linarith
    · show (0 : ℚ) + w + 5 ≤ 115
      linarith
    · show (0 : ℚ) ≤ 0 + w + 10
      linarith
    · show (0 : ℚ) + w + 10 ≤ 115
      linarith
    · show (0 : ℚ) ≤ 0 + w
      linarith
    · show (0 : ℚ) + w ≤ 115
      linarith

/-- C3 (amended): every confidence value attached to a selected ortholog —
the candidate's computed preference score, which the orchestrator writes
into `GeneRecord.ortholog_identity` — lies within [0, 115]; the upper end
115 (human candidate for an E. coli gene: weight 100 plus both cross-domain
bonuses) exceeds the claimed bound 100. -/
theorem c3_confidence_bounded (genes_in_ko : List String)
    (gene_id ko_id exclude_organism : String) (r : OrthologResult)
    (h : find_best_ortholog_in_ko genes_in_ko gene_id ko_id exclude_organism
        = some r) :
    0 ≤ r.confidence ∧ r.confidence ≤ 115 := by
  unfold find_best_ortholog_in_ko at h
  split at h
  · cases h
  · rcases hhead : (sortDesc (buildCandidates genes_in_ko gene_id
        exclude_organism)).head? with _ | c
    · rw [hhead] at h
      cases h
    · rw [hhead] at h
      replace h : some ({ gene_id := gene_id
                          ortholog_gene_id := some c.1
                          ortholog_species := some c.2.1
                          ortholog_name := some c.1
                          ortholog_description := some ("Ortholog from " ++ c.2.1)
                          ko_id := some ko_id
                          confidence := c.2.2
                          method := "KEGG_KO" } : OrthologResult) = some r := h
      obtain rfl := Option.some.inj h
      rw [head_sortDesc_eq_firstMax] at hhead
      obtain ⟨hmem, -, -⟩ := firstMax_spec _ c hhead
      obtain ⟨hscore, -⟩ := buildCandidates_score _ _ _ _ hmem
      show 0 ≤ c.2.2 ∧ c.2.2 ≤ 115
      rw [hscore]
      exact calculate_ortholog_score_bounds exclude_organism c.2.1

/-- Concrete selected result for the C3 witness: a candidate from an
unlisted organism scores 0. -/
def c3WitnessResult : OrthologResult :=
  { gene_id := "eco:b1", ortholog_gene_id := some "zzz:9",
    ortholog_species := some "zzz", ortholog_name := some "zzz:9",
    ortholog_description := some ("Ortholog from " ++ "zzz"),
    ko_id := some "ko:K1", confidence := 0, method := "KEGG_KO" }

/-- Witness for C3 (amended). -/
theorem c3_confidence_bounded_witness :
    0 ≤ c3WitnessResult.confidence ∧ c3WitnessResult.confidence ≤ 115 :=
  c3_confidence_bounded ["zzz:9"] "eco:b1" "ko:K1" "eco" c3WitnessResult rfl

/-- Counterexample to C3 as stated: resolving an E. coli gene whose KO
group contains a human gene selects it with preference score
100 + 10 + 5 = 115, which is outside [0, 100], and the gene-update loop
writes exactly this value into `ortholog_identity`. -/
theorem c3_counterexample_confidence_115 :
    (find_best_ortholog_in_ko ["hsa:1"] "eco:b1" "ko:K1" "eco").map
        OrthologResult.confidence = some (0 + 100 + 10 + 5) ∧
    ((0 : ℚ) + 100 + 10 + 5 = 115) ∧ ¬ ((115 : ℚ) ≤ 100) ∧
    (applyOrtholog
        { gene_id := "eco:b1", ortholog_gene_id := some "hsa:1",
          ortholog_species := some "hsa", ortholog_name := some "hsa:1",
          ortholog_description := some ("Ortholog from " ++ "hsa"),
          ko_id := some "ko:K1", confidence := 115, method := "KEGG_KO" }
        (mkGeneRow 1 { name := "eco:b1", description := "d" })).ortholog_identity
      = some 115 := by
  refine ⟨rfl, by norm_num, by norm_num, rfl⟩

/-- C7: whenever all surviving candidates of a KO group come from two
organisms `A` and `B` with `B`'s preference score strictly below `A`'s and
at least one candidate from `A` survives, the per-KO selection picks a
candidate from `A` — for every ordering of the group-membership response,
since the hypotheses quantify over arbitrary member lists; and the head of
the stable descending sort is always the first-seen candidate of maximal
score (ties broken by first-seen order). -/
theorem c7_selection_prefers_higher_weight (genes_in_ko : List String)
    (gene_id ko_id exclude_organism A B : String)
    (hAB : ∀ c ∈ buildCandidates genes_in_ko gene_id exclude_organism,
        c.2.1 = A ∨ c.2.1 = B)
    (hscore : calculate_ortholog_score exclude_organism B <
        calculate_ortholog_score exclude_organism A)
    (hA : ∃ c ∈ buildCandidates genes_in_ko gene_id exclude_organism,
        c.2.1 = A) :
    ((find_best_ortholog_in_ko genes_in_ko gene_id ko_id
        exclude_organism).map OrthologResult.ortholog_species =
      some (some A)) ∧
    (∀ c, (sortDesc (buildCandidates genes_in_ko gene_id
          exclude_organism)).head? = some c →
        c ∈ buildCandidates genes_in_ko gene_id exclude_organism ∧
        (∀ d ∈ buildCandidates genes_in_ko gene_id exclude_organism,
          scoreOf d ≤ scoreOf c) ∧
        ∃ pre post, buildCandidates genes_in_ko gene_id exclude_organism =
          pre ++ c :: post ∧ ∀ d ∈ pre, scoreOf d < scoreOf c) := by
  constructor
  · obtain ⟨ca, hca_mem, hca_A⟩ := hA
    have hne : genes_in_ko ≠ [] := by
      intro hnil
      rw [hnil] at hca_mem
      exact List.not_mem_nil ca hca_mem
    rcases hhead0 : firstMax (buildCandidates genes_in_ko gene_id
        exclude_organism) with _ | c
    · exfalso
      rw [eq_nil_of_firstMax_eq_none _ hhead0] at hca_mem
      exact List.not_mem_nil ca hca_mem
    · have hhead : (sortDesc (buildCandidates genes_in_ko gene_id
          exclude_organism)).head? = some c := by
        rw [head_sortDesc_eq_firstMax, hhead0]
      obtain ⟨hc_mem, hc_max, -⟩ := firstMax_spec _ c hhead0
      have hcA : c.2.1 = A := by
        rcases hAB c hc_mem with hgood | hbad
        · exact hgood
        · exfalso
          obtain ⟨hsc, -⟩ := buildCandidates_score _ _ _ _ hc_mem
          obtain ⟨hsa, -⟩ := buildCandidates_score _ _ _ _ hca_mem
          have h1 : scoreOf ca ≤ scoreOf c := hc_max ca hca_mem
          have h2 : scoreOf ca =
              calculate_ortholog_score exclude_organism A := by
            show ca.2.2 = _
            rw [hsa, hca_A]
          have h3 : scoreOf c =
              calculate_ortholog_score exclude_organism B := by
            show c.2.2 = _
            rw [hsc, hbad]
          linarith
      unfold find_best_ortholog_in_ko
      rw [if_neg hne, hhead]
      show some (some c.2.1) = some (some A)
      rw [hcA]
  · intro c hc
    rw [head_sortDesc_eq_firstMax] at hc
    exact firstMax_spec _ c hc

theorem score_mmu_lt_hsa :
    calculate_ortholog_score "eco" "mmu" <
      calculate_ortholog_score "eco" "hsa" := by
  have h1 : calculate_ortholog_score "eco" "mmu" = 0 + 95 + 5 := rfl
  have h2 : calculate_ortholog_score "eco" "hsa" = 0 + 100 + 10 + 5 := rfl
  rw [h1, h2]
  norm_num

/-- Witness for C7: mouse (weight 95 + 5) listed before human
(weight 100 + 10 + 5) in the response; human is still selected. -/
theorem c7_selection_prefers_higher_weight_witness :
    (find_best_ortholog_in_ko ["mmu:1", "hsa:2"] "eco:b1" "ko:K7"
        "eco").map OrthologResult.ortholog_species = some (some "hsa") :=
  (c7_selection_prefers_higher_weight ["mmu:1", "hsa:2"] "eco:b1" "ko:K7"
    "eco" "hsa" "mmu" (by decide) score_mmu_lt_hsa (by decide)).1

/-- C8: resolving `source:geneA` against KO members `{source:geneA,
source:geneB, other:geneC}` filters out both genes whose organism-code
part before the colon equals the source organism — the surviving candidate
list is exactly `other:geneC` — and selects `other:geneC`. -/
theorem c8_same_organism_excluded :
    buildCandidates ["source:geneA", "source:geneB", "other:geneC"]
        "source:geneA" "source" =
      [("other:geneC", "other", calculate_ortholog_score "source" "other")] ∧
    (find_best_ortholog_in_ko
        ["source:geneA", "source:geneB", "other:geneC"] "source:geneA"
        "ko:K1" "source").map OrthologResult.ortholog_gene_id =
      some (some "other:geneC") :=
  ⟨rfl, rfl⟩

theorem find_best_gene_id (genes_in_ko : List String)
    (gene_id ko_id exclude_organism : String) (r : OrthologResult)
    (h : find_best_ortholog_in_ko genes_in_ko gene_id ko_id exclude_organism
        = some r) : r.gene_id = gene_id := by
  unfold find_best_ortholog_in_ko at h
  split at h
  · cases h
  · rcases hhead : (sortDesc (buildCandidates genes_in_ko gene_id
        exclude_organism)).head? with _ | c
    · rw [hhead] at h
      cases h
    · rw [hhead] at h
      replace h : some ({ gene_id := gene_id
                          ortholog_gene_id := some c.1
                          ortholog_species := some c.2.1
                          ortholog_name := some c.1
                          ortholog_description := some ("Ortholog from " ++ c.2.1)
                          ko_id := some ko_id
                          confidence := c.2.2
                          method := "KEGG_KO" } : OrthologResult) = some r := h
      obtain rfl := Option.some.inj h
      rfl

theorem searchKoList_gene_id (oracle : KeggOracle)
    (gene_id organism_code : String) (kos : List String)
    (r : OrthologResult)
    (h : searchKoList oracle gene_id organism_code kos = .ok (some r)) :
    r.gene_id = gene_id := by
  induction kos with
  | nil => simp [searchKoList] at h
  | cons ko rest ih =>
      rw [searchKoList] at h
      rcases hko : oracle.genesInKo ko with genes | msg | msg
      · simp only [hko] at h
        rcases hfb : find_best_ortholog_in_ko genes gene_id ko
            organism_code with _ | o
        · simp only [hfb] at h
          exact ih h
        · simp only [hfb, Except.ok.injEq, Option.some.injEq] at h
          obtain rfl := h
          exact find_best_gene_id _ _ _ _ _ hfb
      · simp only [hko] at h
        exact ih h
      · simp only [hko] at h
        cases h

theorem find_ortholog_for_gene_gene_id (oracle : KeggOracle)
    (gene_id organism_code : String)
    (ko_mappings : List (String × List String)) (r : OrthologResult)
    (h : find_ortholog_for_gene oracle gene_id organism_code ko_mappings =
        .ok r) : r.gene_id = gene_id := by
  simp only [find_ortholog_for_gene] at h
  generalize hk : (if ko_mappings ≠ [] ∧
      (ko_mappings.lookup gene_id).isSome
      then (ko_mappings.lookup gene_id).getD [] else []) = kids at h
  split at h
  · replace h : Except.ok (ε := String) (noAssignmentResult gene_id) =
        .ok r := h
    obtain rfl := Except.ok.inj h
    rfl
  · rcases hs : searchKoList oracle gene_id organism_code kids
        with msg | v
    · simp only [hs] at h
      cases h
    · rcases v with _ | o
      · simp only [hs] at h
        replace h : Except.ok (ε := String)
            (noOrthologResult gene_id kids) = .ok r := h
        obtain rfl := Except.ok.inj h
        rfl
      · simp only [hs, Except.ok.injEq] at h
        obtain rfl := h
        exact searchKoList_gene_id oracle gene_id organism_code kids _ hs

theorem resolveOrEncode_gene_id (oracle : KeggOracle)
    (organism_code : String) (m : List (String × List String))
    (g : GeneData) :
    (resolveOrEncode oracle organism_code m g).gene_id = g.name := by
  unfold resolveOrEncode
  rcases hf : find_ortholog_for_gene oracle g.name organism_code m
      with msg | r
  · rfl
  · exact find_ortholog_for_gene_gene_id oracle g.name organism_code m r hf

theorem resolveOrEncode_error (oracle : KeggOracle)
    (organism_code : String) (m : List (String × List String))
    (g : GeneData) (em : String)
    (hf : find_ortholog_for_gene oracle g.name organism_code m =
        .error em) :
    resolveOrEncode oracle organism_code m g = errorResult g.name := by
  unfold resolveOrEncode
  rw [hf]

/-- C5 (amended): whenever the organism-wide KO-mapping fetch succeeds and
the input gene list is nonempty, the batch resolution returns normally with
exactly one result per input gene, in input order, and any exception raised
while resolving an individual gene is encoded as that gene's `ERROR`
result without aborting the batch.  (As stated the claim is false: the
call raises — see the counterexample — on an empty gene list, because a
log line divides by `len(genes)`, and when the KO-mapping fetch itself
raises.) -/
theorem c5_one_result_per_gene (oracle : KeggOracle)
    (organism_code : String) (genes : List GeneData)
    (m : List (String × List String))
    (hko : oracle.koMappings = .ok m) (hne : genes ≠ []) :
    ∃ rs, find_orthologs_for_organism oracle organism_code genes = .ok rs ∧
      rs.length = genes.length ∧
      (∀ i : Nat, (rs[i]?).map OrthologResult.gene_id =
        (genes[i]?).map GeneData.name) ∧
      (∀ (i : Nat) (g : GeneData), genes[i]? = some g →
        ∀ em, find_ortholog_for_gene oracle g.name organism_code m =
            .error em →
          rs[i]? = some (errorResult g.name)) := by
  have hlen : ¬ (genes.length = 0) := by
    cases genes
    · exact absurd rfl hne
    · simp
  refine ⟨genes.map (resolveOrEncode oracle organism_code m),
    ?_, ?_, ?_, ?_⟩
  · simp only [find_orthologs_for_organism, hko]
    rw [if_neg hlen]
  · simp
  · intro i
    rw [List.getElem?_map]
    rcases hg : genes[i]? with _ | g
    · rfl
    · show some (resolveOrEncode oracle organism_code m g).gene_id =
        some g.name
      rw [resolveOrEncode_gene_id]
  · intro i g hg em hf
    rw [List.getElem?_map, hg]
    show some (resolveOrEncode oracle organism_code m g) =
      some (errorResult g.name)
    rw [resolveOrEncode_error oracle organism_code m g em hf]

/-- Counterexample to C5 as stated: with an empty input list the batch
resolution raises `ZeroDivisionError` (the coverage log line at
ortholog_service.py:153-156 divides by `len(genes)`), and when the
organism-wide KO-mapping fetch exhausts its retries the `KEGGAPIError`
propagates — in neither case is a list of per-gene results returned. -/
theorem c5_counterexample_raises :
    find_orthologs_for_organism
        ⟨.ok [("eco:g1", ["ko:K1"])], fun _ => .ok []⟩ "eco" [] =
      .error .zeroDivisionError ∧
    find_orthologs_for_organism
        ⟨.error "kegg down", fun _ => .ok []⟩ "eco"
        [{ name := "eco:g1", description := "x" }] =
      .error (.keggApiError "kegg down") := ⟨rfl, rfl⟩

/-- Oracle for the C5 witness: the KO-mapping fetch succeeds but every
per-KO membership lookup raises a non-KEGG exception. -/
def c5Oracle : KeggOracle :=
  ⟨.ok [("eco:g1", ["ko:K1"])], fun _ => .otherFail "boom"⟩

/-- Gene list for the C5 witness. -/
def c5Genes : List GeneData := [{ name := "eco:g1", description := "x" }]

/-- Witness for C5 (amended): one gene whose resolution raises; the batch
still returns one result slot for it. -/
theorem c5_one_result_per_gene_witness :
    ∃ rs, find_orthologs_for_organism c5Oracle "eco" c5Genes = .ok rs ∧
      rs.length = c5Genes.length ∧
      (∀ i : Nat, (rs[i]?).map OrthologResult.gene_id =
        (c5Genes[i]?).map GeneData.name) ∧
      (∀ (i : Nat) (g : GeneData), c5Genes[i]? = some g →
        ∀ em, find_ortholog_for_gene c5Oracle g.name "eco"
            [("eco:g1", ["ko:K1"])] = .error em →
          rs[i]? = some (errorResult g.name)) :=
  c5_one_result_per_gene c5Oracle "eco" c5Genes [("eco:g1", ["ko:K1"])]
    rfl (by decide)

theorem find_set_some (l : List OrganismRec) (o : OrganismRec) (oid : Nat)
    (hid : o.id = oid)
    (hex : (l.find? (fun x => x.id = oid)).isSome) :
    (l.map (fun x => if x.id = o.id then o else x)).find?
      (fun x => x.id = oid) = some o := by
  induction l with
  | nil => simp at hex
  | cons x xs ih =>
      by_cases hx : x.id = oid
      · have hxo : x.id = o.id := by rw [hx, hid]
        simp only [List.map_cons, if_pos hxo]
        rw [List.find?_cons_of_pos]
        simp [hid]
      · have hxo : ¬ (x.id = o.id) := by rw [hid]; exact hx
        simp only [List.map_cons, if_neg hxo]
        rw [List.find?_cons_of_neg _ (by simp [hx])]
        rw [List.find?_cons_of_neg _ (by simp [hx])] at hex
        exact ih hex

theorem findOrganism_setOrganism (db : DB) (o : OrganismRec) (oid : Nat)
    (hid : o.id = oid) (hex : (db.findOrganism oid).isSome) :
    (db.setOrganism o).findOrganism oid = some o :=
  find_set_some db.organisms o oid hid hex

theorem update_isSome (st : RedisState) (stage : String) (q : ℚ)
    (gp gw er tg : Option Nat) :
    (ProgressTracker.update st stage q gp gw er tg).isSome := by
  rcases st with _ | ⟨d, ttl⟩
  · rfl
  · rfl

theorem error_stage_of_isSome (redis : RedisState) (msg : String)
    (h : redis.isSome) :
    (ProgressTracker.get_progress (ProgressTracker.error redis msg)).map
      ProgressData.stage = some "error" := by
  rcases redis with _ | ⟨d, ttl⟩
  · simp at h
  · rfl

theorem jobFail_case (dbA : DB) (redisA : RedisState) (o : OrganismRec)
    (oid : Nat) (job_id : String) (msgX : String) (exX : PyExn)
    (db2 : DB) (redis2 : RedisState) (ex : PyExn)
    (hid : o.id = oid)
    (hredA : redisA.isSome)
    (hrun : jobFail dbA redisA
        { o with status := some "pending"
                 job_id := some job_id
                 job_error := none } msgX exX = (db2, redis2, .error ex))
    (hexA : (dbA.findOrganism oid).isSome) :
    ∃ msg, db2.findOrganism oid =
        some { o with status := some "error"
                      job_id := some job_id
                      job_error := some (msg.take 1000) } ∧
      (∃ r : RedisState, r.isSome ∧
          redis2 = ProgressTracker.error r msg) ∧
      (ProgressTracker.get_progress redis2).map ProgressData.stage =
        some "error" := by
  unfold jobFail at hrun
  simp only [Prod.mk.injEq] at hrun
  obtain ⟨hdb, hred, -⟩ := hrun
  refine ⟨msgX, ?_, ⟨redisA, hredA, hred.symm⟩, ?_⟩
  · rw [← hdb]
    exact findOrganism_setOrganism dbA _ oid hid hexA
  · rw [← hred]
    exact error_stage_of_isSome redisA msgX hredA

/-- C4 (amended): for job-fatal failures that occur after the organism
record has been loaded — the client's retry exhaustion (`KEGGAPIError`
from the fetch or from resolution's KO-mapping call) and unexpected
exceptions (e.g. the `ZeroDivisionError` resolution raises on an empty
gene list) — the orchestrator sets the organism's status to `error` with
the truncated message, calls the tracker's error operation (against a
present progress key, so the recorded stage becomes `error`), and
re-raises; and on no failed run is status `complete` ever left behind.
When the organism is NOT found, however, the handler itself crashes
dereferencing `None`: nothing is written, the tracker's error operation
has no observable effect, and an `AttributeError` propagates instead of
the original `ValueError`. -/
theorem c4_amended_failure_paths (db : DB) (redis : RedisState)
    (oracle : JobOracle) (job_id : String) (organism_id : Nat) :
    (db.findOrganism organism_id = none →
       process_organism_job db redis oracle job_id organism_id =
         (db, redis, .error (.attributeError attrErrorMsg))) ∧
    (∀ o db2 redis2 ex, db.findOrganism organism_id = some o →
       process_organism_job db redis oracle job_id organism_id =
         (db2, redis2, .error ex) →
       ∃ msg, db2.findOrganism organism_id =
           some { o with status := some "error"
                         job_id := some job_id
                         job_error := some (msg.take 1000) } ∧
         (∃ r : RedisState, r.isSome ∧
             redis2 = ProgressTracker.error r msg) ∧
         (ProgressTracker.get_progress redis2).map ProgressData.stage =
           some "error") ∧
    (∀ db2 redis2 ex,
       process_organism_job db redis oracle job_id organism_id =
         (db2, redis2, .error ex) →
       (db2.findOrganism organism_id).map OrganismRec.status ≠
         some (some "complete")) := by
  have part1 : db.findOrganism organism_id = none →
      process_organism_job db redis oracle job_id organism_id =
        (db, redis, .error (.attributeError attrErrorMsg)) := by
    intro hfind
    simp only [process_organism_job, hfind]
  have part2 : ∀ o db2 redis2 ex, db.findOrganism organism_id = some o →
      process_organism_job db redis oracle job_id organism_id =
        (db2, redis2, .error ex) →
      ∃ msg, db2.findOrganism organism_id =
          some { o with status := some "error"
                        job_id := some job_id
                        job_error := some (msg.take 1000) } ∧
        (∃ r : RedisState, r.isSome ∧
            redis2 = ProgressTracker.error r msg) ∧
        (ProgressTracker.get_progress redis2).map ProgressData.stage =
          some "error" := by
    intro o db2 redis2 ex hfind hrun
    have hid : o.id = organism_id := by
      have hp := List.find?_some hfind
      simpa using hp
    have hidP : ({ o with status := some "pending", job_id := some job_id, job_error := none } : OrganismRec).id = organism_id := hid
    have hexA : ((db.setOrganism { o with status := some "pending", job_id := some job_id, job_error := none }).findOrganism organism_id).isSome := by
      rw [findOrganism_setOrganism db _ organism_id hidP
        (by rw [hfind]; rfl)]
      rfl
    simp only [process_organism_job, hfind] at hrun
    rcases hfetch : oracle.fetchGenes with msg | gd
    · simp only [hfetch] at hrun
      exact jobFail_case _ _ o organism_id job_id _ _ db2 redis2 ex hid
        (update_isSome _ _ _ _ _ _ _) hrun hexA
    · simp only [hfetch] at hrun
      rcases hres : find_orthologs_for_organism oracle.kegg o.code gd
          with e | results
      · rcases e with em | em | _ | em <;>
          simp only [hres] at hrun <;>
          exact jobFail_case _ _ o organism_id job_id _ _ db2 redis2 ex hid
            (update_isSome _ _ _ _ _ _ _) hrun hexA
      · simp only [hres] at hrun
        simp only [Prod.mk.injEq] at hrun
        obtain ⟨-, -, hbad⟩ := hrun
        cases hbad
  have part3 : ∀ db2 redis2 ex,
      process_organism_job db redis oracle job_id organism_id =
        (db2, redis2, .error ex) →
      (db2.findOrganism organism_id).map OrganismRec.status ≠
        some (some "complete") := by
    intro db2 redis2 ex hrun
    rcases hfind : db.findOrganism organism_id with _ | o
    · rw [part1 hfind] at hrun
      simp only [Prod.mk.injEq] at hrun
      obtain ⟨h1, -, -⟩ := hrun
      rw [← h1, hfind]
      simp
    · obtain ⟨msg, hfound, -, -⟩ := part2 o db2 redis2 ex hfind hrun
      rw [hfound]
      simp
  exact ⟨part1, part2, part3⟩

/-- The pre-existing progress entry used by the C4 counterexample. -/
def c4StaleProgress : ProgressData :=
  { organism_id := 7, organism_code := "eco", stage := "fetching_genes",
    progress := 5, total_genes := 0, genes_processed := 0,
    genes_with_orthologs := 0, errors := 0 }

/-- Counterexample to C4 as stated: running the job for a missing organism
(id 1, empty organism table) neither marks anything as errored nor calls
the tracker's error operation — the progress entry keeps stage
`fetching_genes` — and the propagated exception is the handler's own
`AttributeError` (the `except` block dereferences `organism = None` at
process_job.py:491), not the organism-not-found `ValueError`. -/
theorem c4_counterexample_not_found_masks_error :
    process_organism_job ⟨[], []⟩ (some (c4StaleProgress, 86400))
        ⟨.ok [], ⟨.ok [], fun _ => .ok []⟩⟩ "job1" 1 =
      (⟨[], []⟩, some (c4StaleProgress, 86400),
       .error (.attributeError attrErrorMsg)) ∧
    (ProgressTracker.get_progress
        (some (c4StaleProgress, 86400))).map ProgressData.stage ≠
      some "error" := by
  refine ⟨rfl, ?_⟩
  simp [ProgressTracker.get_progress, c4StaleProgress]

/-- Witness for C4 (amended), exercising the organism-not-found conjunct
at a concrete empty database. -/
theorem c4_amended_failure_paths_witness :
    process_organism_job ⟨[], []⟩ none
        ⟨.ok [], ⟨.ok [], fun _ => .ok []⟩⟩ "job1" 1 =
      (⟨[], []⟩, none, .error (.attributeError attrErrorMsg)) :=
  (c4_amended_failure_paths ⟨[], []⟩ none
    ⟨.ok [], ⟨.ok [], fun _ => .ok []⟩⟩ "job1" 1).1 rfl
